import Mathlib

/-!
Shallow embedding of the Match Orchestration Engine (`ChessEngine` class,
src/routes `../engine/chess-engine`): the retry-with-backoff helper, the
multi-tier arbiter client (`makeApiRequest` / `makeLocalRequest`), the bot
process lifecycle (`compileCppBot`, `initializeBot`, `getBotMove`), and the
match loop (`runMatch`).  External effects (network responses, child-process
output chunks, exit codes, JSON parsing) are passed in as explicit oracle
parameters; everything else is translated line by line from the source.
-/

namespace ChessEngine

/-- JavaScript truthiness of an optional string field: `undefined`/absent and
the empty string are falsy, every other string is truthy. -/
def strTruthy : Option String → Bool
  | none => false
  | some s => s != ""

/-- JSON-shaped response data returned by the arbiter API.  Fields mirror the
properties the engine reads: `status` (health check), `bestMove`, `moves`
(history echo), `fen`, `newFen`. -/
structure ApiData where
  status : Option String
  bestMove : Option String
  moves : Option (List String)
  fen : Option String
  newFen : Option String
deriving DecidableEq, Repr

/-- Boolean "is an `Except.ok`" discriminator. -/
def exOk : Except ε α → Bool
  | Except.ok _ => true
  | Except.error _ => false

/-- Result of a `retryWithBackoff` run: the final outcome, how many times the
operation was attempted, and the list of backoff sleeps (in ms) performed
between attempts, in order. -/
structure RetryResult (α : Type) where
  result : Except String α
  attempts : Nat
  delays : List Nat
deriving Repr

/-- The `for (let i = 0; i < maxRetries; i++)` loop body of
`retryWithBackoff`: attempt `op i`; on success return it, on failure sleep
`retryDelay * 2^i` (only when another attempt remains) and continue; after the
last failed attempt the last error is rethrown.  `i` is the current attempt
index, the second argument the number of attempts remaining.  The
attempts-remaining = 0 case corresponds to the unreachable
`'All retry attempts failed'` fallback (`lastError` still `null`). -/
def retryLoop (op : Nat → Except String α) (delayBase : Nat) :
    Nat → Nat → RetryResult α
  | _, 0 => ⟨Except.error "All retry attempts failed", 0, []⟩
  | i, 1 =>
    match op i with
    | Except.ok v => ⟨Except.ok v, 1, []⟩
    | Except.error e => ⟨Except.error e, 1, []⟩
  | i, (n+2) =>
    match op i with
    | Except.ok v => ⟨Except.ok v, 1, []⟩
    | Except.error _ =>
      let r := retryLoop op delayBase (i+1) (n+1)
      ⟨r.result, r.attempts + 1, delayBase * 2^i :: r.delays⟩

/-- `this.retryCount = 3`. -/
def retryCount : Nat := 3

/-- `this.retryDelay = 2000` (ms). -/
def retryDelay : Nat := 2000

/-- `retryWithBackoff(operation, isKeepAlive)`: `maxRetries` is 1 for
keep-alive calls and `retryCount` (3) otherwise; the operation is attempted up
to `maxRetries` times with sleeps of `retryDelay * 2^i` between attempts. -/
def retryWithBackoff (op : Nat → Except String α) (isKeepAlive : Bool) :
    RetryResult α :=
  retryLoop op retryDelay 0 (if isKeepAlive then 1 else retryCount)

/-- The per-attempt operation `makeApiRequest` hands to `retryWithBackoff` for
one network endpoint: `net i` is the HTTP response data of attempt `i` (`none`
= network/axios failure).  A well-formed response must additionally pass the
content predicate: for the status endpoint `/`, `status === 'ok'`; for other
endpoints, `data.bestMove || data.moves || data.fen` must be truthy (an empty
`bestMove`/`fen` string is falsy, a present `moves` array — even empty — is
truthy). -/
def endpointOp (net : Nat → Option ApiData) (endpoint : String) (i : Nat) :
    Except String ApiData :=
  match net i with
  | none => Except.error "network error"
  | some d =>
    if endpoint = "/" then
      if d.status == some "ok" then Except.ok d
      else Except.error "API status check failed"
    else
      if strTruthy d.bestMove || d.moves.isSome || strTruthy d.fen then
        Except.ok d
      else Except.error "Invalid API response"

/-- Request body of a POST to the arbiter, with the optional fields the engine
ever sends: `moves` (runMatch), `fen` and `timeLimit` (evaluatePosition). -/
structure ReqData where
  moves : Option (List String)
  fen : Option String
  timeLimit : Option Nat
deriving DecidableEq, Repr

/-- The adjudication body `runMatch` posts to `/api/bestmove`:
`{ moves: moves }` — no `fen` and no `timeLimit` field. -/
def runMatchBestmoveBody (moves : List String) : ReqData :=
  { moves := some moves, fen := none, timeLimit := none }

/-- JS template interpolation of a possibly-undefined string:
`` `${x}` `` prints the literal `undefined` when `x` is absent. -/
def jsInterpolate : Option String → String
  | none => "undefined"
  | some s => s

/-- JS `x || dflt` on an optional number: absent and `0` are falsy. -/
def jsOrNat : Option Nat → Nat → Nat
  | none, d => d
  | some 0, d => d
  | some (n+1), _ => n+1

/-- The lines `makeLocalRequest` writes to the spawned local engine's stdin:
for `/api/bestmove` with a (truthy) body it writes
`position fen ${data.fen}` and `go movetime ${data.timeLimit || 1000}`;
any other endpoint (or missing body) gets a single `uci` line. -/
def localStdinLines (endpoint : String) (data : Option ReqData) : List String :=
  match data with
  | some d =>
    if endpoint = "/api/bestmove" then
      ["position fen " ++ jsInterpolate d.fen,
       "go movetime " ++ toString (jsOrNat d.timeLimit 1000)]
    else ["uci"]
  | none => ["uci"]

/-- Observable behaviour of one freshly spawned local engine process: its exit
code and its entire accumulated stdout. -/
structure LocalProc where
  exitCode : Int
  stdout : String
deriving DecidableEq, Repr

/-- `makeLocalRequest(endpoint, data)`: spawns the local engine, writes
`localStdinLines`, accumulates stdout, and on `close` rejects when the exit
code is non-zero, otherwise `JSON.parse`s the whole accumulated output
(`parseJson` is the abstract JSON parser; `none` = parse failure).  Returns
the settled promise value together with the stdin lines written. -/
def makeLocalRequest (localPath : Option String) (endpoint : String)
    (data : Option ReqData) (proc : LocalProc)
    (parseJson : String → Option ApiData) :
    Except String ApiData × List String :=
  match localPath with
  | none => (Except.error "Local Stockfish not available", [])
  | some _ =>
    ( if proc.exitCode ≠ 0 then
        Except.error ("Local Stockfish process exited with code "
          ++ toString proc.exitCode)
      else
        match parseJson proc.stdout with
        | some d => Except.ok d
        | none => Except.error "Failed to parse local Stockfish response",
      localStdinLines endpoint data )

/-- The engine state `makeApiRequest` consults: the `isApiAvailable` hint set
by `initialize()` and the local binary path discovered at startup. -/
structure ApiState where
  isApiAvailable : Bool
  localStockfishPath : Option String
deriving DecidableEq, Repr

/-- One tier of the arbiter backend order: primary URL, fallback URL, local
process. -/
inductive BackendTag where
  | primaryB
  | secondaryB
  | localB
deriving DecidableEq, Repr

/-- `makeApiRequest(endpoint, data, isKeepAlive)`: skip straight to the local
backend when `!this.isApiAvailable && this.localStockfishPath`; otherwise try
the primary URL then the fallback URL, each through `retryWithBackoff`; when
both fail, use the local backend if a binary was discovered, else throw
`'All API endpoints are unavailable and no local fallback'`.  `net1`/`net2`
give the per-attempt HTTP responses of the two URLs.  The second component
records which backend each attempt hit, in order. -/
def makeApiRequest (st : ApiState) (endpoint : String) (data : Option ReqData)
    (net1 net2 : Nat → Option ApiData) (proc : LocalProc)
    (parseJson : String → Option ApiData) (isKeepAlive : Bool) :
    Except String ApiData × List BackendTag :=
  if !st.isApiAvailable && st.localStockfishPath.isSome then
    ((makeLocalRequest st.localStockfishPath endpoint data proc parseJson).1,
     [BackendTag.localB])
  else
    let r1 := retryWithBackoff (endpointOp net1 endpoint) isKeepAlive
    match r1.result with
    | Except.ok v => (Except.ok v, List.replicate r1.attempts BackendTag.primaryB)
    | Except.error _ =>
      let r2 := retryWithBackoff (endpointOp net2 endpoint) isKeepAlive
      let tr := List.replicate r1.attempts BackendTag.primaryB
        ++ List.replicate r2.attempts BackendTag.secondaryB
      match r2.result with
      | Except.ok v => (Except.ok v, tr)
      | Except.error _ =>
        if st.localStockfishPath.isSome then
          ((makeLocalRequest st.localStockfishPath endpoint data proc parseJson).1,
           tr ++ [BackendTag.localB])
        else
          (Except.error "All API endpoints are unavailable and no local fallback",
           tr)

/-- Drop the first occurrence of `pat` from `l`, splicing in `rep` (the list
form of JS `String.prototype.replace` with a string pattern, which replaces
only the first match). -/
def replaceFirstChars (pat rep : List Char) : List Char → List Char
  | [] => []
  | c :: rest =>
    if pat.isPrefixOf (c :: rest) then rep ++ (c :: rest).drop pat.length
    else c :: replaceFirstChars pat rep rest

/-- JS `s.replace(pat, rep)` with a string pattern: first occurrence only. -/
def replaceFirst (s pat rep : String) : String :=
  String.mk (replaceFirstChars pat.toList rep.toList s.toList)

/-- Observable behaviour of one `g++` compilation run, as seen by the `close`
handler of `compileCppBot`: the exit code, the accumulated stderr, and
whether the output artifact exists on disk afterwards. -/
structure CompilerOutcome where
  exitCode : Int
  stderrOutput : String
  artifactExists : Bool
deriving DecidableEq, Repr

/-- Result of `compileCppBot`: the settled promise plus whether the artifact
was marked executable (`fs.chmodSync(outputPath, 0o755)`). -/
structure BuildResult where
  result : Except String String
  chmodCalled : Bool
deriving Repr

/-- `compileCppBot(sourcePath)` on a POSIX platform: the output path is the
source path with the first `.cpp` removed; a non-zero compiler exit rejects
with the captured stderr; a zero exit with no artifact on disk also rejects;
otherwise the artifact is chmod-ed 0755 and its path resolved. -/
def compileCppBot (sourcePath : String) (co : CompilerOutcome) : BuildResult :=
  let outputPath := replaceFirst sourcePath ".cpp" ""
  if co.exitCode = 0 then
    if co.artifactExists then ⟨Except.ok outputPath, true⟩
    else
      ⟨Except.error ("Compilation succeeded but executable was not created at "
        ++ outputPath), false⟩
  else
    ⟨Except.error ("Compilation failed with code " ++ toString co.exitCode
      ++ "\n" ++ co.stderrOutput), false⟩

/-- JS `s.endsWith(suffix)` as a structurally computable suffix test on the
underlying character lists. -/
def endsWithStr (s suffix : String) : Bool :=
  suffix.toList.isSuffixOf s.toList

/-- The build step `runMatch` applies to each bot path:
`path.endsWith('.cpp') ? await this.compileCppBot(path) : path`. -/
def buildStep (path : String) (co : CompilerOutcome) : Except String String :=
  if endsWithStr path ".cpp" then (compileCppBot path co).result
  else Except.ok path

/-- The two handshake commands `initializeBot` writes after spawning. -/
def handshakeWrites : List String := ["uci", "isready"]

/-- Outcome of one bounded wait on a child process: the settled promise and
whether the wait's own timeout handler killed the process when it fired. -/
structure WaitOutcome (α : Type) where
  result : Except String α
  killedOnTimeout : Bool
deriving Repr

/-- `String.prototype.includes` on the underlying character lists: does `pat`
occur contiguously inside the second list? -/
def containsSeq (pat : List Char) : List Char → Bool
  | [] => pat.isEmpty
  | c :: rest => pat.isPrefixOf (c :: rest) || containsSeq pat rest

/-- Does one stdout chunk contain the readiness token?  The `data` handler of
`initializeBot` tests `data.toString().includes('readyok')` on each chunk by
itself (chunks are never accumulated). -/
def chunkHasReadyok (chunk : String) : Bool :=
  containsSeq "readyok".toList chunk.toList

/-- The handshake wait of `initializeBot`: `chunks` are the stdout chunks the
bot produces within the 5-second window, in order.  The promise resolves as
soon as some single chunk contains `readyok`; otherwise the timer fires,
kills the bot, and rejects with `'Bot initialization timeout'`. -/
def initializeBot (chunks : List String) : WaitOutcome Unit :=
  if chunks.any chunkHasReadyok then ⟨Except.ok (), false⟩
  else ⟨Except.error "Bot initialization timeout", true⟩

/-- Everything after the first occurrence of `pat` in `l` (`none` when `pat`
does not occur) — the list form of `s.split(pat)[1..]` rejoined, which is what
feeding `split(pat)[1].split(' ')[0]` consumes, since `pat` ends in a space. -/
def afterFirst (pat : List Char) : List Char → Option (List Char)
  | [] => if pat = [] then some [] else none
  | c :: rest =>
    if pat.isPrefixOf (c :: rest) then some ((c :: rest).drop pat.length)
    else afterFirst pat rest

/-- Does one stdout chunk contain the `bestmove` marker?  The `moveHandler` of
`getBotMove` tests `output.includes('bestmove')` per chunk. -/
def chunkHasBestmove (chunk : String) : Bool :=
  containsSeq "bestmove".toList chunk.toList

/-- The move-request wait of `getBotMove`: the first chunk containing
`bestmove` is parsed by `output.split('bestmove ')[1].split(' ')[0].trim()`;
an empty or `(none)` token rejects with `'Bot returned invalid move'`; if no
such chunk arrives within 5 seconds the timer rejects with
`'Bot move timeout'` — without killing the bot (no `kill` in this handler).
A chunk containing `bestmove` but not `bestmove ` (marker at end of chunk,
where the JS indexing would fault) is modelled as the invalid-move
rejection. -/
def getBotMove (chunks : List String) : WaitOutcome String :=
  match chunks.find? chunkHasBestmove with
  | none => ⟨Except.error "Bot move timeout", false⟩
  | some c =>
    match afterFirst ("bestmove ".toList) c.toList with
    | none => ⟨Except.error "Bot returned invalid move", false⟩
    | some rest =>
      let mv := (String.mk (rest.takeWhile (fun ch => ch ≠ ' '))).trim
      if mv ≠ "" ∧ mv ≠ "(none)" then ⟨Except.ok mv, false⟩
      else ⟨Except.error "Bot returned invalid move", false⟩

/-- The result object `runMatch` resolves with (`engineOutput` is only set on
the no-legal-moves path). -/
structure MatchResult where
  winner : Nat
  reason : String
  moves : List String
  engineOutput : Option String
deriving DecidableEq, Repr

/-- `currentPlayer === 1 ? 2 : 1`. -/
def otherPlayer (p : Nat) : Nat := if p = 1 then 2 else 1

/-- The guard `!data.bestMove || data.bestMove === 'none'`: absent or empty
(falsy) `bestMove`, or the literal sentinel `none`. -/
def bestMoveMissing (d : ApiData) : Bool :=
  !strTruthy d.bestMove || d.bestMove == some "none"

/-- `currentFen = data.newFen || currentFen`: a falsy `newFen` (absent or
empty) keeps the previous position. -/
def jsOrStr (o : Option String) (dflt : String) : String :=
  match o with
  | none => dflt
  | some s => if s = "" then dflt else s

/-- Starting position constant of `runMatch`. -/
def initialFen : String :=
  "rnbqkbnr/pppppppp/8/8/8/8/PPPPPPPP/RNBQKBNR w KQkq - 0 1"

/-- The `while (moveCount < 50)` turn loop of `runMatch`.  The first `Nat`
argument is `50 - moveCount` (moves remaining before the draw cut-off), then
`currentPlayer`, `currentFen`, and the accumulated `moves` array.  `botMove`
is the oracle for `getBotMove` (indexed by ply = current history length and
position; an error is any rejection: move timeout, invalid move, write
failure), `arbiter` the oracle for `makeApiRequest('/api/bestmove',
{moves})`.  A rejection of either inside the try block is caught and scored
as an immediate loss for the side to move (`Bot error: ...`); an absent/`none`
`bestMove` ends the match with `No legal moves available` against the side
that just moved; otherwise the arbiter's `newFen` (if truthy) replaces the
position, the counter advances and the side flips. -/
def runMatchLoop (botMove : Nat → String → Except String String)
    (arbiter : List String → Except String ApiData) :
    Nat → Nat → String → List String → MatchResult
  | 0, _, _, moves => ⟨0, "Draw by move limit", moves, none⟩
  | (r+1), p, fen, moves =>
    match botMove moves.length fen with
    | Except.error e => ⟨otherPlayer p, "Bot error: " ++ e, moves, none⟩
    | Except.ok mv =>
      match arbiter (moves ++ [mv]) with
      | Except.error e =>
        ⟨otherPlayer p, "Bot error: " ++ e, moves ++ [mv], none⟩
      | Except.ok d =>
        if bestMoveMissing d then
          ⟨otherPlayer p, "No legal moves available", moves ++ [mv], d.bestMove⟩
        else
          runMatchLoop botMove arbiter r (otherPlayer p)
            (jsOrStr d.newFen fen) (moves ++ [mv])

/-- `runMatch`'s loop started from its initial state: `moveCount = 0` (50
remaining), `currentPlayer = 1`, the standard starting position, empty
history. -/
def runMatchFromStart (botMove : Nat → String → Except String String)
    (arbiter : List String → Except String ApiData) : MatchResult :=
  runMatchLoop botMove arbiter 50 1 initialFen []

/-- A teardown effect of `runMatch`'s `finally` block on one side's process
handle. -/
inductive TEffect where
  | quit (side : Nat)
  | kill (side : Nat)
deriving DecidableEq, Repr

/-- The `finally` block of `runMatch`: write `quit` to each still-assigned
handle's stdin, then `kill()` each still-assigned handle, in source order.
`b1`/`b2` say whether the `bot1`/`bot2` variables were ever assigned (a
handle is assigned exactly when its `initializeBot` resolved, and a resolved
handle has live stdin). -/
def teardownEffects (b1 b2 : Bool) : List TEffect :=
  (if b1 then [TEffect.quit 1] else []) ++ (if b2 then [TEffect.quit 2] else [])
    ++ (if b1 then [TEffect.kill 1] else [])
    ++ (if b2 then [TEffect.kill 2] else [])

/-- Whether `runMatch` reaches the assignment of `bot1`: both builds
succeeded and the first handshake resolved. -/
def bot1Assigned (co1 co2 : CompilerOutcome) (p1 p2 : String)
    (init1 : Except String Unit) : Bool :=
  exOk (buildStep p1 co1) && exOk (buildStep p2 co2) && exOk init1

/-- Whether `runMatch` reaches the assignment of `bot2`: additionally the
second handshake resolved. -/
def bot2Assigned (co1 co2 : CompilerOutcome) (p1 p2 : String)
    (init1 init2 : Except String Unit) : Bool :=
  bot1Assigned co1 co2 p1 p2 init1 && exOk init2

/-- `runMatch(bot1Path, bot2Path)` end to end: compile both bots (in order),
initialize both (in order), run the turn loop, and in every case run the
`finally` teardown.  `init1`/`init2` are the oracles for the two
`initializeBot` calls (an error is a spawn/handshake failure).  Returns the
settled promise (`Except.error` = the exception propagated to the caller)
together with the teardown effects performed. -/
def runMatchFull (co1 co2 : CompilerOutcome) (p1 p2 : String)
    (init1 init2 : Except String Unit)
    (botMove : Nat → String → Except String String)
    (arbiter : List String → Except String ApiData) :
    Except String MatchResult × List TEffect :=
  match buildStep p1 co1 with
  | Except.error e => (Except.error e, teardownEffects false false)
  | Except.ok _ =>
    match buildStep p2 co2 with
    | Except.error e => (Except.error e, teardownEffects false false)
    | Except.ok _ =>
      match init1 with
      | Except.error e => (Except.error e, teardownEffects false false)
      | Except.ok _ =>
        match init2 with
        | Except.error e => (Except.error e, teardownEffects true false)
        | Except.ok _ =>
          (Except.ok (runMatchLoop botMove arbiter 50 1 initialFen []),
           teardownEffects true true)

section RetryLemmas

variable {α : Type}

/-- Full case analysis of a non-keep-alive `retryWithBackoff` run: it is
determined by the first three attempt outcomes. -/
lemma retryWB_false_eq (op : Nat → Except String α) :
    retryWithBackoff op false =
      match op 0 with
      | Except.ok v => ⟨Except.ok v, 1, []⟩
      | Except.error _ =>
        match op 1 with
        | Except.ok v => ⟨Except.ok v, 2, [2000]⟩
        | Except.error _ =>
          match op 2 with
          | Except.ok v => ⟨Except.ok v, 3, [2000, 4000]⟩
          | Except.error e => ⟨Except.error e, 3, [2000, 4000]⟩ := by
  rcases h0 : op 0 with e0 | v0 <;> rcases h1 : op 1 with e1 | v1 <;>
    rcases h2 : op 2 with e2 | v2 <;>
    simp [retryWithBackoff, retryCount, retryDelay, retryLoop, h0, h1, h2]

/-- A keep-alive `retryWithBackoff` run is a single attempt with no sleeps. -/
lemma retryWB_true_eq (op : Nat → Except String α) :
    retryWithBackoff op true =
      match op 0 with
      | Except.ok v => ⟨Except.ok v, 1, []⟩
      | Except.error e => ⟨Except.error e, 1, []⟩ := by
  rcases h0 : op 0 with e0 | v0 <;>
    simp [retryWithBackoff, retryCount, retryDelay, retryLoop, h0]

/-- A failed non-keep-alive run used its full budget of 3 attempts. -/
lemma retryWB_false_fail_attempts (op : Nat → Except String α)
    (h : exOk (retryWithBackoff op false).result = false) :
    (retryWithBackoff op false).attempts = 3 := by
  rw [retryWB_false_eq] at *
  rcases h0 : op 0 with e0 | v0 <;> rcases h1 : op 1 with e1 | v1 <;>
    rcases h2 : op 2 with e2 | v2 <;> simp [h0, h1, h2, exOk] at h ⊢

/-- A non-keep-alive run makes at most 3 attempts. -/
lemma retryWB_false_attempts_le (op : Nat → Except String α) :
    (retryWithBackoff op false).attempts ≤ 3 := by
  rw [retryWB_false_eq]
  rcases op 0 with e0 | v0 <;> rcases op 1 with e1 | v1 <;>
    rcases op 2 with e2 | v2 <;> simp

/-- The sleeps of a non-keep-alive run form a prefix of `[2000, 4000]`. -/
lemma retryWB_false_delays (op : Nat → Except String α) :
    (retryWithBackoff op false).delays <+: [2000, 4000] := by
  rw [retryWB_false_eq]
  rcases op 0 with e0 | v0 <;> rcases op 1 with e1 | v1 <;>
    rcases op 2 with e2 | v2 <;> simp

end RetryLemmas

/-- C5: a non-keep-alive `retryWithBackoff` attempts the operation at most 3
times, with inter-attempt sleeps forming a prefix of `[2000, 4000]` ms —
strictly increasing, doubling from the 2-second base — and exactly 3 attempts
are consumed before escalating (i.e. whenever the run fails); a keep-alive run
attempts the operation exactly once with no backoff sleep. -/
theorem retry_policy_c5 (op : Nat → Except String ApiData) :
    ((retryWithBackoff op false).attempts ≤ 3
      ∧ (retryWithBackoff op false).delays <+: [2000, 4000]
      ∧ List.Chain' (· < ·) (retryWithBackoff op false).delays
      ∧ (exOk (retryWithBackoff op false).result = false →
          (retryWithBackoff op false).attempts = 3))
    ∧ (retryWithBackoff op true).attempts = 1
      ∧ (retryWithBackoff op true).delays = [] := by
  refine ⟨⟨retryWB_false_attempts_le op, retryWB_false_delays op, ?_,
    retryWB_false_fail_attempts op⟩, ?_, ?_⟩
  · have h := retryWB_false_delays op
    rcases h with ⟨t, ht⟩
    have : (retryWithBackoff op false).delays = [] ∨
        (retryWithBackoff op false).delays = [2000] ∨
        (retryWithBackoff op false).delays = [2000, 4000] := by
      rw [retryWB_false_eq]
      rcases op 0 with e0 | v0 <;> rcases op 1 with e1 | v1 <;>
        rcases op 2 with e2 | v2 <;> simp
    rcases this with h | h | h <;> rw [h] <;> simp
  · rw [retryWB_true_eq]
    rcases op 0 with e0 | v0 <;> simp
  · rw [retryWB_true_eq]
    rcases op 0 with e0 | v0 <;> simp

/-- Witness for C5 at a concrete always-failing operation: the run escalates
after exactly 3 attempts, and a keep-alive run makes exactly 1. -/
theorem retry_policy_c5_witness :
    (retryWithBackoff (fun _ => (Except.error "boom" : Except String ApiData))
        false).attempts = 3
    ∧ (retryWithBackoff (fun _ => (Except.error "boom" : Except String ApiData))
        true).attempts = 1 :=
  ⟨(retry_policy_c5 (fun _ => Except.error "boom")).1.2.2.2 rfl,
   (retry_policy_c5 (fun _ => Except.error "boom")).2.1⟩

section LoopLemmas

/-- `exOk` characterisation. -/
lemma exOk_iff {ε α : Type} (r : Except ε α) :
    exOk r = true ↔ ∃ v, r = Except.ok v := by
  rcases r with e | v <;> simp [exOk]

/-- Each loop iteration appends at most one move, so the history grows by at
most the number of remaining iterations. -/
lemma runMatchLoop_len_le (bm : Nat → String → Except String String)
    (arb : List String → Except String ApiData) :
    ∀ (r p : Nat) (fen : String) (ms : List String),
      (runMatchLoop bm arb r p fen ms).moves.length ≤ ms.length + r := by
  intro r
  induction r with
  | zero => intro p fen ms; simp [runMatchLoop]
  | succ n ih =>
    intro p fen ms
    rcases hmv : bm ms.length fen with e | mv
    · simp [runMatchLoop, hmv]
    · rcases hd : arb (ms ++ [mv]) with e | d
      · simp [runMatchLoop, hmv, hd]
      · by_cases hbm : bestMoveMissing d = true
        · simp [runMatchLoop, hmv, hd, hbm]
        · simp only [Bool.not_eq_true] at hbm
          have h := ih (otherPlayer p) (jsOrStr d.newFen fen) (ms ++ [mv])
          simp [runMatchLoop, hmv, hd, hbm] at h ⊢
          omega

/-- When every bot request resolves and every adjudication returns a usable
`bestMove`, the loop runs to the move cut-off and ends in the draw result,
having appended one move per remaining iteration. -/
lemma runMatchLoop_draw (bm : Nat → String → Except String String)
    (arb : List String → Except String ApiData)
    (hbot : ∀ i fen, ∃ mv, bm i fen = Except.ok mv)
    (harb : ∀ ms, ∃ d, arb ms = Except.ok d ∧ bestMoveMissing d = false) :
    ∀ (r p : Nat) (fen : String) (ms : List String),
      (runMatchLoop bm arb r p fen ms).winner = 0
      ∧ (runMatchLoop bm arb r p fen ms).reason = "Draw by move limit"
      ∧ (runMatchLoop bm arb r p fen ms).moves.length = ms.length + r := by
  intro r
  induction r with
  | zero => intro p fen ms; simp [runMatchLoop]
  | succ n ih =>
    intro p fen ms
    obtain ⟨mv, hmv⟩ := hbot ms.length fen
    obtain ⟨d, hd, hbm⟩ := harb (ms ++ [mv])
    have h := ih (otherPlayer p) (jsOrStr d.newFen fen) (ms ++ [mv])
    simp [runMatchLoop, hmv, hd, hbm] at h ⊢
    exact ⟨h.1, h.2.1, by omega⟩

end LoopLemmas

/-- C1: if every ply succeeds (the bot always returns a move and the arbiter
always returns a truthy `bestMove` other than the `none` sentinel), the match
ends as a draw — `winner = 0`, `reason = "Draw by move limit"` — with exactly
50 recorded moves; and every completed match has at most 50 recorded moves. -/
theorem run_match_draw_c1 (bm : Nat → String → Except String String)
    (arb : List String → Except String ApiData) :
    ((∀ i fen, ∃ mv, bm i fen = Except.ok mv) →
      (∀ ms, ∃ d, arb ms = Except.ok d ∧ bestMoveMissing d = false) →
      (runMatchFromStart bm arb).winner = 0
      ∧ (runMatchFromStart bm arb).reason = "Draw by move limit"
      ∧ (runMatchFromStart bm arb).moves.length = 50)
    ∧ (runMatchFromStart bm arb).moves.length ≤ 50 := by
  constructor
  · intro hbot harb
    have h := runMatchLoop_draw bm arb hbot harb 50 1 initialFen []
    simpa [runMatchFromStart] using h
  · have h := runMatchLoop_len_le bm arb 50 1 initialFen []
    simpa [runMatchFromStart] using h

/-- Witness for C1: a bot that always answers `e2e4` against an arbiter that
always returns `bestMove = "e2e4"` reaches the 50-move draw. -/
theorem run_match_draw_c1_witness :
    (runMatchFromStart (fun _ _ => Except.ok "e2e4")
        (fun _ => Except.ok ⟨none, some "e2e4", none, none, some "f"⟩)).winner = 0
    ∧ (runMatchFromStart (fun _ _ => Except.ok "e2e4")
        (fun _ => Except.ok ⟨none, some "e2e4", none, none, some "f"⟩)).reason
      = "Draw by move limit"
    ∧ (runMatchFromStart (fun _ _ => Except.ok "e2e4")
        (fun _ => Except.ok ⟨none, some "e2e4", none, none, some "f"⟩)).moves.length
      = 50 :=
  (run_match_draw_c1 (fun _ _ => Except.ok "e2e4")
      (fun _ => Except.ok ⟨none, some "e2e4", none, none, some "f"⟩)).1
    (fun _ _ => ⟨"e2e4", rfl⟩) (fun _ => ⟨_, rfl, rfl⟩)

/-- C2: an error raised during a turn — a bot-move rejection before the move
is recorded, or an arbiter rejection after it — ends the match immediately
with the side to move as loser and the opposing side as winner (`Bot error:`
result); the winner is never the draw value 0 and never the side that was to
move; and with both builds and both handshakes succeeded, `runMatch` always
resolves (never rejects) whatever happens inside the loop, so in-loop
failures cannot produce the ERROR state. -/
theorem turn_error_loss_c2 (bm : Nat → String → Except String String)
    (arb : List String → Except String ApiData) (r p : Nat) (fen : String)
    (ms : List String) (e : String) :
    (bm ms.length fen = Except.error e →
      runMatchLoop bm arb (r+1) p fen ms
        = ⟨otherPlayer p, "Bot error: " ++ e, ms, none⟩)
    ∧ (∀ mv, bm ms.length fen = Except.ok mv →
        arb (ms ++ [mv]) = Except.error e →
        runMatchLoop bm arb (r+1) p fen ms
          = ⟨otherPlayer p, "Bot error: " ++ e, ms ++ [mv], none⟩)
    ∧ otherPlayer p ≠ 0
    ∧ otherPlayer p ≠ p
    ∧ (∀ co1 co2 p1 p2, exOk (buildStep p1 co1) = true →
        exOk (buildStep p2 co2) = true →
        exOk (runMatchFull co1 co2 p1 p2 (Except.ok ()) (Except.ok ())
          bm arb).1 = true) := by
  refine ⟨?_, ?_, ?_, ?_, ?_⟩
  · intro h; simp [runMatchLoop, h]
  · intro mv hmv harb; simp [runMatchLoop, hmv, harb]
  · unfold otherPlayer; split <;> simp
  · unfold otherPlayer; split <;> omega
  · intro co1 co2 p1 p2 h1 h2
    obtain ⟨v1, hv1⟩ := (exOk_iff _).mp h1
    obtain ⟨v2, hv2⟩ := (exOk_iff _).mp h2
    unfold runMatchFull
    rw [hv1, hv2]
    rfl

/-- Witness for C2: a bot-move timeout on ply 1 and an arbiter failure on ply
1 each score the match against side 1 with side 2 as winner; a match whose
setup succeeded resolves even though every turn fails. -/
theorem turn_error_loss_c2_witness :
    runMatchLoop (fun _ _ => Except.error "Bot move timeout")
        (fun _ => Except.ok ⟨none, some "e2e4", none, none, none⟩)
        50 1 initialFen []
      = ⟨2, "Bot error: Bot move timeout", [], none⟩
    ∧ runMatchLoop (fun _ _ => Except.ok "e2e4")
        (fun _ => Except.error "All API endpoints are unavailable and no local fallback")
        50 1 initialFen []
      = ⟨2, "Bot error: All API endpoints are unavailable and no local fallback",
          ["e2e4"], none⟩
    ∧ exOk (runMatchFull ⟨0, "", true⟩ ⟨0, "", true⟩ "a" "b"
        (Except.ok ()) (Except.ok ())
        (fun _ _ => Except.error "Bot move timeout")
        (fun _ => Except.ok ⟨none, some "e2e4", none, none, none⟩)).1 = true :=
  ⟨(turn_error_loss_c2 (fun _ _ => Except.error "Bot move timeout")
      (fun _ => Except.ok ⟨none, some "e2e4", none, none, none⟩)
      49 1 initialFen [] "Bot move timeout").1 rfl,
   (turn_error_loss_c2 (fun _ _ => Except.ok "e2e4")
      (fun _ => Except.error "All API endpoints are unavailable and no local fallback")
      49 1 initialFen []
      "All API endpoints are unavailable and no local fallback").2.1 "e2e4" rfl rfl,
   (turn_error_loss_c2 (fun _ _ => Except.error "Bot move timeout")
      (fun _ => Except.ok ⟨none, some "e2e4", none, none, none⟩)
      0 1 initialFen [] "x").2.2.2.2 ⟨0, "", true⟩ ⟨0, "", true⟩ "a" "b" rfl rfl⟩

section PlyLemmas

/-- Unfolding of one successful loop iteration: position updated, side
flipped, move appended. -/
lemma runMatchLoop_succ_good (bm : Nat → String → Except String String)
    (arb : List String → Except String ApiData) {n p : Nat} {fen : String}
    {ms : List String} {mv : String} {d : ApiData}
    (hmv : bm ms.length fen = Except.ok mv)
    (hd : arb (ms ++ [mv]) = Except.ok d)
    (hbm : bestMoveMissing d = false) :
    runMatchLoop bm arb (n+1) p fen ms
      = runMatchLoop bm arb n (otherPlayer p) (jsOrStr d.newFen fen)
          (ms ++ [mv]) := by
  simp [runMatchLoop, hmv, hd, hbm]

/-- Unfolding of an iteration on which the arbiter reports no legal move. -/
lemma runMatchLoop_succ_none (bm : Nat → String → Except String String)
    (arb : List String → Except String ApiData) {n p : Nat} {fen : String}
    {ms : List String} {mv : String} {d : ApiData}
    (hmv : bm ms.length fen = Except.ok mv)
    (hd : arb (ms ++ [mv]) = Except.ok d)
    (hbm : bestMoveMissing d = true) :
    runMatchLoop bm arb (n+1) p fen ms
      = ⟨otherPlayer p, "No legal moves available", ms ++ [mv], d.bestMove⟩ := by
  simp [runMatchLoop, hmv, hd, hbm]

/-- If every bot request resolves, the arbiter returns a usable `bestMove`
for every history shorter than `k` and the `none` sentinel for every history
of length `k`, then from any loop state that has not yet reached `k` plies
(and whose side to move has the parity the loop maintains) the match ends
with `No legal moves available`, exactly `k` recorded moves, and the mover of
ply `k` as loser. -/
lemma runMatchLoop_none_ply (bm : Nat → String → Except String String)
    (arb : List String → Except String ApiData) (k : Nat)
    (hbot : ∀ i fen, ∃ mv, bm i fen = Except.ok mv)
    (hgood : ∀ ms : List String, ms.length < k →
      ∃ d, arb ms = Except.ok d ∧ bestMoveMissing d = false)
    (hnone : ∀ ms : List String, ms.length = k →
      ∃ d, arb ms = Except.ok d ∧ d.bestMove = some "none") :
    ∀ (r p : Nat) (fen : String) (ms : List String),
      k ≤ ms.length + r → ms.length < k →
      p = (if ms.length % 2 = 0 then 1 else 2) →
      (runMatchLoop bm arb r p fen ms).reason = "No legal moves available"
      ∧ (runMatchLoop bm arb r p fen ms).moves.length = k
      ∧ (runMatchLoop bm arb r p fen ms).winner
          = (if (k - 1) % 2 = 0 then 2 else 1) := by
  intro r
  induction r with
  | zero =>
    intro p fen ms h1 h2 _
    exact absurd h2 (by omega)
  | succ n ih =>
    intro p fen ms h1 h2 hp
    obtain ⟨mv, hmv⟩ := hbot ms.length fen
    by_cases hk : ms.length + 1 = k
    · obtain ⟨d, hd, hbm⟩ := hnone (ms ++ [mv]) (by simpa using hk)
      have hmiss : bestMoveMissing d = true := by
        simp [bestMoveMissing, hbm]
      rw [runMatchLoop_succ_none bm arb hmv hd hmiss]
      refine ⟨rfl, by simpa using hk, ?_⟩
      have hk1 : k - 1 = ms.length := by omega
      rw [hk1, hp]
      rcases Nat.mod_two_eq_zero_or_one ms.length with h | h <;>
        simp [otherPlayer, h]
    · obtain ⟨d, hd, hbm⟩ := hgood (ms ++ [mv]) (by simp; omega)
      rw [runMatchLoop_succ_good bm arb hmv hd hbm]
      refine ih (otherPlayer p) (jsOrStr d.newFen fen) (ms ++ [mv])
        (by simp; omega) (by simp; omega) ?_
      rw [hp]
      rcases Nat.mod_two_eq_zero_or_one ms.length with h | h
      · have h2 : (ms.length + 1) % 2 = 1 := by omega
        simp [otherPlayer, h, h2]
      · have h2 : (ms.length + 1) % 2 = 0 := by omega
        simp [otherPlayer, h, h2]

end PlyLemmas

/-- C3: when the bot always answers and the arbiter adjudicates every history
shorter than `k` normally but reports `bestMove = "none"` on the history of
length `k` (i.e. on ply `k`, right after the mover's move was appended), the
match ends immediately with `reason = "No legal moves available"`, exactly
`k` recorded moves, and the side that just moved (side 1 for odd `k`, side 2
for even `k`) as the loser. -/
theorem no_legal_moves_c3 (bm : Nat → String → Except String String)
    (arb : List String → Except String ApiData) (k : Nat)
    (hbot : ∀ i fen, ∃ mv, bm i fen = Except.ok mv)
    (hgood : ∀ ms : List String, ms.length < k →
      ∃ d, arb ms = Except.ok d ∧ bestMoveMissing d = false)
    (hnone : ∀ ms : List String, ms.length = k →
      ∃ d, arb ms = Except.ok d ∧ d.bestMove = some "none")
    (hk1 : 1 ≤ k) (hk50 : k ≤ 50) :
    (runMatchFromStart bm arb).reason = "No legal moves available"
    ∧ (runMatchFromStart bm arb).moves.length = k
    ∧ (runMatchFromStart bm arb).winner
        = (if (k - 1) % 2 = 0 then 2 else 1) := by
  have h := runMatchLoop_none_ply bm arb k hbot hgood hnone 50 1 initialFen []
    (by simp; omega) (by simpa using hk1) (by simp)
  simpa [runMatchFromStart] using h

/-- Witness for C3 at `k = 3` (the spec's scenario): the arbiter answers
normally for histories of length 1 and 2 and returns the `none` sentinel on
ply 3; the match ends at once with 3 recorded moves and side 1 (the mover of
ply 3) as loser, side 2 as winner. -/
theorem no_legal_moves_c3_witness :
    (runMatchFromStart (fun _ _ => Except.ok "e2e4")
        (fun ms => if ms.length = 3
          then Except.ok ⟨none, some "none", none, none, none⟩
          else Except.ok ⟨none, some "e7e5", none, none, some "f2"⟩)).reason
      = "No legal moves available"
    ∧ (runMatchFromStart (fun _ _ => Except.ok "e2e4")
        (fun ms => if ms.length = 3
          then Except.ok ⟨none, some "none", none, none, none⟩
          else Except.ok ⟨none, some "e7e5", none, none, some "f2"⟩)).moves.length
      = 3
    ∧ (runMatchFromStart (fun _ _ => Except.ok "e2e4")
        (fun ms => if ms.length = 3
          then Except.ok ⟨none, some "none", none, none, none⟩
          else Except.ok ⟨none, some "e7e5", none, none, some "f2"⟩)).winner
      = 2 :=
  no_legal_moves_c3 (fun _ _ => Except.ok "e2e4")
    (fun ms => if ms.length = 3
      then Except.ok ⟨none, some "none", none, none, none⟩
      else Except.ok ⟨none, some "e7e5", none, none, some "f2"⟩) 3
    (fun _ _ => ⟨"e2e4", rfl⟩)
    (fun ms h => ⟨⟨none, some "e7e5", none, none, some "f2"⟩,
      by have hne : ¬ ms.length = 3 := by omega
         simp [hne], rfl⟩)
    (fun ms h => ⟨⟨none, some "none", none, none, none⟩, by simp [h], rfl⟩)
    (by omega) (by omega)

/-- Membership in a teardown effect list is exactly "that handle was
assigned". -/
lemma teardown_mem (b1 b2 : Bool) :
    (TEffect.quit 1 ∈ teardownEffects b1 b2 ↔ b1 = true)
    ∧ (TEffect.quit 2 ∈ teardownEffects b1 b2 ↔ b2 = true)
    ∧ (TEffect.kill 1 ∈ teardownEffects b1 b2 ↔ b1 = true)
    ∧ (TEffect.kill 2 ∈ teardownEffects b1 b2 ↔ b2 = true) := by
  rcases b1 <;> rcases b2 <;> simp [teardownEffects]

/-- C6: on every exit path of `runMatch` — normal completion, a returned loss
result, or a thrown exception from either build or either handshake — the
`finally` teardown runs, and its effects are exactly a quit write followed by
a kill for each handle that was live (assigned): a handle is quit iff it is
killed iff it was assigned, and when both are live the effect order is
quit 1, quit 2, kill 1, kill 2 — so no spawned bot handle survives the
match. -/
theorem unconditional_teardown_c6 (co1 co2 : CompilerOutcome) (p1 p2 : String)
    (init1 init2 : Except String Unit)
    (bm : Nat → String → Except String String)
    (arb : List String → Except String ApiData) :
    (runMatchFull co1 co2 p1 p2 init1 init2 bm arb).2
        = teardownEffects (bot1Assigned co1 co2 p1 p2 init1)
            (bot2Assigned co1 co2 p1 p2 init1 init2)
    ∧ (TEffect.quit 1 ∈ (runMatchFull co1 co2 p1 p2 init1 init2 bm arb).2
        ↔ bot1Assigned co1 co2 p1 p2 init1 = true)
    ∧ (TEffect.quit 2 ∈ (runMatchFull co1 co2 p1 p2 init1 init2 bm arb).2
        ↔ bot2Assigned co1 co2 p1 p2 init1 init2 = true)
    ∧ (TEffect.kill 1 ∈ (runMatchFull co1 co2 p1 p2 init1 init2 bm arb).2
        ↔ bot1Assigned co1 co2 p1 p2 init1 = true)
    ∧ (TEffect.kill 2 ∈ (runMatchFull co1 co2 p1 p2 init1 init2 bm arb).2
        ↔ bot2Assigned co1 co2 p1 p2 init1 init2 = true)
    ∧ teardownEffects true true
        = [TEffect.quit 1, TEffect.quit 2, TEffect.kill 1, TEffect.kill 2] := by
  have heq : (runMatchFull co1 co2 p1 p2 init1 init2 bm arb).2
      = teardownEffects (bot1Assigned co1 co2 p1 p2 init1)
          (bot2Assigned co1 co2 p1 p2 init1 init2) := by
    unfold runMatchFull bot2Assigned bot1Assigned
    rcases hb1 : buildStep p1 co1 with e1 | v1
    · rfl
    · rcases hb2 : buildStep p2 co2 with e2 | v2
      · rfl
      · rcases hi1 : init1 with e3 | u1
        · rfl
        · rcases hi2 : init2 with e4 | u2
          · rfl
          · rfl
  rw [heq]
  obtain h := teardown_mem (bot1Assigned co1 co2 p1 p2 init1)
    (bot2Assigned co1 co2 p1 p2 init1 init2)
  exact ⟨rfl, h.1, h.2.1, h.2.2.1, h.2.2.2, by decide⟩

section ApiRequestLemmas

variable (st : ApiState) (ep : String) (data : Option ReqData)
variable (net1 net2 : Nat → Option ApiData) (proc : LocalProc)
variable (parseJson : String → Option ApiData)

/-- With the availability hint false and a local binary present,
`makeApiRequest` goes straight to the local backend. -/
lemma makeApiRequest_skip
    (h : (!st.isApiAvailable && st.localStockfishPath.isSome) = true) :
    makeApiRequest st ep data net1 net2 proc parseJson false
      = ((makeLocalRequest st.localStockfishPath ep data proc parseJson).1,
         [BackendTag.localB]) := by
  unfold makeApiRequest
  rw [if_pos h]

/-- If the primary URL's retry run succeeds, its value is returned and only
primary attempts appear in the trace. -/
lemma makeApiRequest_primary_ok
    (h : (!st.isApiAvailable && st.localStockfishPath.isSome) = false)
    {v : ApiData}
    (h1 : (retryWithBackoff (endpointOp net1 ep) false).result = Except.ok v) :
    makeApiRequest st ep data net1 net2 proc parseJson false
      = (Except.ok v,
         List.replicate (retryWithBackoff (endpointOp net1 ep) false).attempts
           BackendTag.primaryB) := by
  unfold makeApiRequest
  rw [if_neg (by simp [h])]
  simp [h1]

/-- If the primary run fails and the secondary run succeeds, the secondary
value is returned after the primary attempts. -/
lemma makeApiRequest_secondary_ok
    (h : (!st.isApiAvailable && st.localStockfishPath.isSome) = false)
    {e1 : String} {v : ApiData}
    (h1 : (retryWithBackoff (endpointOp net1 ep) false).result
      = Except.error e1)
    (h2 : (retryWithBackoff (endpointOp net2 ep) false).result = Except.ok v) :
    makeApiRequest st ep data net1 net2 proc parseJson false
      = (Except.ok v,
         List.replicate (retryWithBackoff (endpointOp net1 ep) false).attempts
             BackendTag.primaryB
           ++ List.replicate
             (retryWithBackoff (endpointOp net2 ep) false).attempts
             BackendTag.secondaryB) := by
  unfold makeApiRequest
  rw [if_neg (by simp [h])]
  simp [h1, h2]

/-- If both network runs fail and a local binary exists, the local backend's
response is returned after all network attempts. -/
lemma makeApiRequest_local_tier
    (h : (!st.isApiAvailable && st.localStockfishPath.isSome) = false)
    {e1 e2 : String}
    (h1 : (retryWithBackoff (endpointOp net1 ep) false).result
      = Except.error e1)
    (h2 : (retryWithBackoff (endpointOp net2 ep) false).result
      = Except.error e2)
    (hlp : st.localStockfishPath.isSome = true) :
    makeApiRequest st ep data net1 net2 proc parseJson false
      = ((makeLocalRequest st.localStockfishPath ep data proc parseJson).1,
         List.replicate (retryWithBackoff (endpointOp net1 ep) false).attempts
             BackendTag.primaryB
           ++ List.replicate
             (retryWithBackoff (endpointOp net2 ep) false).attempts
             BackendTag.secondaryB
           ++ [BackendTag.localB]) := by
  unfold makeApiRequest
  rw [if_neg (by simp [h])]
  simp [h1, h2, hlp]

/-- If both network runs fail and no local binary exists, the terminal
no-backend error is thrown. -/
lemma makeApiRequest_unavailable
    (h : (!st.isApiAvailable && st.localStockfishPath.isSome) = false)
    {e1 e2 : String}
    (h1 : (retryWithBackoff (endpointOp net1 ep) false).result
      = Except.error e1)
    (h2 : (retryWithBackoff (endpointOp net2 ep) false).result
      = Except.error e2)
    (hlp : st.localStockfishPath = none) :
    makeApiRequest st ep data net1 net2 proc parseJson false
      = (Except.error "All API endpoints are unavailable and no local fallback",
         List.replicate (retryWithBackoff (endpointOp net1 ep) false).attempts
             BackendTag.primaryB
           ++ List.replicate
             (retryWithBackoff (endpointOp net2 ep) false).attempts
             BackendTag.secondaryB) := by
  unfold makeApiRequest
  rw [if_neg (by simp [h])]
  simp [h1, h2, hlp]

end ApiRequestLemmas

/-- C4 (amended): the arbiter client tries backends in the fixed order
primary endpoint, then secondary endpoint (each with its full 3-attempt retry
budget), then the local-process backend; concretely, the attempt trace is
`[local]` (the skip case), at most 3 primary attempts, exactly 3 primary
attempts followed by at most 3 secondary attempts, or the full
`3 primary ++ 3 secondary ++ local`.  The local backend appears in the trace
only when a local binary path was discovered at startup, and the skip to it
happens exactly when the `isApiAvailable` hint is false and a binary exists.
The dedicated `ArbiterUnavailable` failure (the terminal
`All API endpoints are unavailable and no local fallback` error after the
full network trace) occurs iff both network endpoints exhausted their retries
and no local binary exists — but a failure of the local fallback itself can
still surface as an error, so not every terminal error implies the absence of
a local binary (see the counterexample). -/
theorem arbiter_fallback_c4 (st : ApiState) (ep : String)
    (data : Option ReqData) (net1 net2 : Nat → Option ApiData)
    (proc : LocalProc) (parseJson : String → Option ApiData) :
    ((!st.isApiAvailable && st.localStockfishPath.isSome) = true →
      makeApiRequest st ep data net1 net2 proc parseJson false
        = ((makeLocalRequest st.localStockfishPath ep data proc parseJson).1,
           [BackendTag.localB]))
    ∧ ((makeApiRequest st ep data net1 net2 proc parseJson false).2
          = [BackendTag.localB]
        ∨ (∃ a, a ≤ 3
            ∧ (makeApiRequest st ep data net1 net2 proc parseJson false).2
              = List.replicate a BackendTag.primaryB)
        ∨ (∃ b, b ≤ 3
            ∧ (makeApiRequest st ep data net1 net2 proc parseJson false).2
              = List.replicate 3 BackendTag.primaryB
                ++ List.replicate b BackendTag.secondaryB)
        ∨ (makeApiRequest st ep data net1 net2 proc parseJson false).2
            = List.replicate 3 BackendTag.primaryB
              ++ List.replicate 3 BackendTag.secondaryB ++ [BackendTag.localB])
    ∧ (BackendTag.localB
          ∈ (makeApiRequest st ep data net1 net2 proc parseJson false).2 →
        st.localStockfishPath.isSome = true)
    ∧ (((makeApiRequest st ep data net1 net2 proc parseJson false).1
          = Except.error "All API endpoints are unavailable and no local fallback"
        ∧ (makeApiRequest st ep data net1 net2 proc parseJson false).2
          = List.replicate 3 BackendTag.primaryB
            ++ List.replicate 3 BackendTag.secondaryB)
        ↔ (st.localStockfishPath = none
          ∧ exOk (retryWithBackoff (endpointOp net1 ep) false).result = false
          ∧ exOk (retryWithBackoff (endpointOp net2 ep) false).result
            = false)) := by
  by_cases hskip : (!st.isApiAvailable && st.localStockfishPath.isSome) = true
  · have hM := makeApiRequest_skip st ep data net1 net2 proc parseJson hskip
    have hsome : st.localStockfishPath.isSome = true :=
      (Bool.and_eq_true _ _ |>.mp hskip).2
    refine ⟨fun _ => hM, Or.inl (by rw [hM]), fun _ => hsome, ?_⟩
    constructor
    · intro ⟨_, htr⟩
      rw [hM] at htr
      exact absurd (congrArg List.length htr) (by simp)
    · intro ⟨hnone, _, _⟩
      rw [hnone] at hsome
      exact absurd hsome (by simp)
  · have hns : (!st.isApiAvailable && st.localStockfishPath.isSome) = false :=
      by simpa using hskip
    rcases h1 : (retryWithBackoff (endpointOp net1 ep) false).result
      with e1 | v1
    · have ha1 : (retryWithBackoff (endpointOp net1 ep) false).attempts = 3 :=
        retryWB_false_fail_attempts _ (by rw [h1]; rfl)
      rcases h2 : (retryWithBackoff (endpointOp net2 ep) false).result
        with e2 | v2
      · have ha2 :
            (retryWithBackoff (endpointOp net2 ep) false).attempts = 3 :=
          retryWB_false_fail_attempts _ (by rw [h2]; rfl)
        rcases hlp : st.localStockfishPath with _ | pth
        · have hM := makeApiRequest_unavailable st ep data net1 net2 proc
            parseJson hns h1 h2 hlp
          rw [ha1, ha2] at hM
          refine ⟨fun hc => absurd hc (by simp [hns]), ?_, ?_, ?_⟩
          · exact Or.inr (Or.inr (Or.inl ⟨3, by omega, by rw [hM]⟩))
          · intro hmem
            rw [hM] at hmem
            simp [List.mem_replicate] at hmem
          · constructor
            · intro _
              refine ⟨by simp [hlp], ?_, ?_⟩
              · simp [h1, exOk]
              · simp [h2, exOk]
            · intro _
              exact ⟨by rw [hM], by rw [hM]⟩
        · have hM := makeApiRequest_local_tier st ep data net1 net2 proc
            parseJson hns h1 h2 (by rw [hlp]; rfl)
          rw [ha1, ha2] at hM
          rw [hlp] at hns
          simp only [Option.isSome_some, Bool.and_true] at hns
          refine ⟨fun hc => absurd hc (by simp [hlp, hns]), ?_, ?_, ?_⟩
          · exact Or.inr (Or.inr (Or.inr (by rw [hM])))
          · intro _
            simp [hlp]
          · constructor
            · intro h
              obtain ⟨_, htr⟩ := h
              rw [hM] at htr
              exact absurd (congrArg List.length htr) (by simp)
            · intro h
              obtain ⟨hnone, _, _⟩ := h
              simp [hlp] at hnone
      · have hM := makeApiRequest_secondary_ok st ep data net1 net2 proc
          parseJson hns h1 h2
        rw [ha1] at hM
        refine ⟨fun hc => absurd hc (by simp [hns]), ?_, ?_, ?_⟩
        · exact Or.inr (Or.inr (Or.inl
            ⟨(retryWithBackoff (endpointOp net2 ep) false).attempts,
             retryWB_false_attempts_le _, by rw [hM]⟩))
        · intro hmem
          rw [hM] at hmem
          simp [List.mem_replicate] at hmem
        · constructor
          · intro h
            obtain ⟨hres, _⟩ := h
            rw [hM] at hres
            exact absurd hres (by simp)
          · intro h
            obtain ⟨_, _, hr2⟩ := h
            simp [h2, exOk] at hr2
    · have hM := makeApiRequest_primary_ok st ep data net1 net2 proc
        parseJson hns h1
      refine ⟨fun hc => absurd hc (by simp [hns]), ?_, ?_, ?_⟩
      · exact Or.inr (Or.inl
          ⟨(retryWithBackoff (endpointOp net1 ep) false).attempts,
           retryWB_false_attempts_le _, by rw [hM]⟩)
      · intro hmem
        rw [hM] at hmem
        simp [List.mem_replicate] at hmem
      · constructor
        · intro h
          obtain ⟨hres, _⟩ := h
          rw [hM] at hres
          exact absurd hres (by simp)
        · intro h
          obtain ⟨_, hr1, _⟩ := h
          simp [h1, exOk] at hr1

/-- Witness for C4 at a concrete state with the availability hint false and a
local binary discovered: the request skips straight to the local backend, and
the local tier only appears because a binary exists. -/
theorem arbiter_fallback_c4_witness :
    makeApiRequest ⟨false, some "sf"⟩ "/" none (fun _ => none) (fun _ => none)
        ⟨0, "ok"⟩ (fun _ => some ⟨some "ok", none, none, none, none⟩) false
      = ((makeLocalRequest (some "sf") "/" none ⟨0, "ok"⟩
          (fun _ => some ⟨some "ok", none, none, none, none⟩)).1,
         [BackendTag.localB])
    ∧ (⟨false, some "sf"⟩ : ApiState).localStockfishPath.isSome = true := by
  have h := arbiter_fallback_c4 ⟨false, some "sf"⟩ "/" none (fun _ => none)
    (fun _ => none) ⟨0, "ok"⟩ (fun _ => some ⟨some "ok", none, none, none, none⟩)
  have hM := h.1 rfl
  refine ⟨hM, h.2.2.1 ?_⟩
  rw [hM]
  simp

/-- C4 counterexample to the claim as stated: with both network endpoints
down, a discovered local binary, and a local engine run that exits with code
1, `makeApiRequest` fails terminally even though a local fallback binary
exists — so "fails with a terminal error only when ... no local fallback
binary exists" is false of the code; only the dedicated
`ArbiterUnavailable` error obeys that restriction. -/
theorem arbiter_fallback_c4_counterexample :
    (makeApiRequest ⟨true, some "stockfish"⟩ "/api/bestmove"
        (some (runMatchBestmoveBody ["e2e4"])) (fun _ => none) (fun _ => none)
        ⟨1, ""⟩ (fun _ => none) false).1
      = Except.error "Local Stockfish process exited with code 1"
    ∧ ((⟨true, some "stockfish"⟩ : ApiState).localStockfishPath).isSome
      = true := by
  constructor <;> rfl

/-- C7 (amended): the handshake wait's fired timeout kills the bot process in
addition to rejecting with the handshake-timeout error; the move-request
wait's fired timeout, however, only rejects with `Bot move timeout` — its
timer handler contains no kill, and the bot is reaped later by `runMatch`'s
unconditional teardown. -/
theorem timeout_kill_c7 (chunks : List String) :
    (chunks.any chunkHasReadyok = false →
      initializeBot chunks
        = ⟨Except.error "Bot initialization timeout", true⟩)
    ∧ (chunks.any chunkHasBestmove = false →
      getBotMove chunks = ⟨Except.error "Bot move timeout", false⟩) := by
  constructor
  · intro h
    simp [initializeBot, h]
  · intro h
    have hf : chunks.find? chunkHasBestmove = none := by
      rw [List.find?_eq_none]
      intro x hx
      simp only [List.any_eq_false] at h
      simp [h x hx]
    simp [getBotMove, hf]

/-- Witness for C7 at a chunk list with neither marker: the handshake timeout
kills, the move timeout does not. -/
theorem timeout_kill_c7_witness :
    initializeBot ["hi"] = ⟨Except.error "Bot initialization timeout", true⟩
    ∧ getBotMove ["hi"] = ⟨Except.error "Bot move timeout", false⟩ :=
  ⟨(timeout_kill_c7 ["hi"]).1 rfl, (timeout_kill_c7 ["hi"]).2 rfl⟩

/-- C7 counterexample to the claim as stated: when the move-request wait
times out (no chunk ever contains the `bestmove` marker), the wait fails with
the timeout error but the associated child process is **not** killed by the
timeout handler — `killedOnTimeout` is `false`, contradicting "the associated
child process is unconditionally killed" for the move-request wait. -/
theorem timeout_kill_c7_counterexample :
    (getBotMove []).result = Except.error "Bot move timeout"
    ∧ (getBotMove []).killedOnTimeout = false :=
  ⟨rfl, rfl⟩

/-- C8 (amended): after writing the two handshake commands `uci` and
`isready`, `initializeBot` succeeds iff the token `readyok` appears inside
some **single** stdout chunk received within the 5-second window — the
handler tests each chunk in isolation, so a token split across two chunks is
not detected (see the counterexample) — and otherwise it fails with the
handshake timeout and force-kills the process. -/
theorem handshake_c8 (chunks : List String) :
    handshakeWrites = ["uci", "isready"]
    ∧ ((initializeBot chunks).result = Except.ok ()
        ↔ chunks.any chunkHasReadyok = true)
    ∧ (chunks.any chunkHasReadyok = false →
        initializeBot chunks
          = ⟨Except.error "Bot initialization timeout", true⟩) := by
  refine ⟨rfl, ?_, ?_⟩
  · rcases hh : chunks.any chunkHasReadyok <;> simp [initializeBot, hh]
  · intro h
    simp [initializeBot, h]

/-- Witness for C8: a single chunk containing `readyok` succeeds; a chunk
list without the token yields the handshake timeout with the process
killed. -/
theorem handshake_c8_witness :
    (initializeBot ["uciok\nreadyok\n"]).result = Except.ok ()
    ∧ initializeBot ["hi"]
      = ⟨Except.error "Bot initialization timeout", true⟩ :=
  ⟨((handshake_c8 ["uciok\nreadyok\n"]).2.1).mpr rfl,
   (handshake_c8 ["hi"]).2.2 rfl⟩

/-- C8 counterexample to the claim as stated: with the readiness token split
across two chunks (`"ready"` then `"ok"`), the token does appear in the
accumulated output `"readyok"`, yet the handshake times out — the code scans
each chunk separately, not the accumulated output. -/
theorem handshake_c8_counterexample :
    (initializeBot ["ready", "ok"]).result
      = Except.error "Bot initialization timeout"
    ∧ containsSeq "readyok".toList (String.join ["ready", "ok"]).toList
      = true :=
  ⟨rfl, rfl⟩

/-- C9: the build step passes non-`.cpp` paths through unchanged; for a
`.cpp` path it delegates to the compiler and fails on a non-zero compiler
exit with the captured stderr in the error, also fails when the compiler
exits zero but the artifact is missing from disk, and on success marks the
artifact executable and returns the artifact's path. -/
theorem builder_c9 (path : String) (co : CompilerOutcome) :
    (endsWithStr path ".cpp" = false → buildStep path co = Except.ok path)
    ∧ (endsWithStr path ".cpp" = true →
        buildStep path co = (compileCppBot path co).result)
    ∧ (co.exitCode ≠ 0 →
        (compileCppBot path co).result
          = Except.error ("Compilation failed with code "
              ++ toString co.exitCode ++ "\n" ++ co.stderrOutput)
        ∧ (compileCppBot path co).chmodCalled = false)
    ∧ (co.exitCode = 0 → co.artifactExists = false →
        (compileCppBot path co).result
          = Except.error ("Compilation succeeded but executable was not created at "
              ++ replaceFirst path ".cpp" "")
        ∧ (compileCppBot path co).chmodCalled = false)
    ∧ (co.exitCode = 0 → co.artifactExists = true →
        (compileCppBot path co).result
          = Except.ok (replaceFirst path ".cpp" "")
        ∧ (compileCppBot path co).chmodCalled = true) := by
  refine ⟨?_, ?_, ?_, ?_, ?_⟩
  · intro h; simp [buildStep, h]
  · intro h; simp [buildStep, h]
  · intro h; simp [compileCppBot, h]
  · intro h ha; simp [compileCppBot, h, ha]
  · intro h ha; simp [compileCppBot, h, ha]

/-- Witness for C9 on concrete inputs: a binary path passes through; a
failing compile carries the stderr; a zero-exit compile without artifact
fails; a successful compile returns the chmod-ed artifact path. -/
theorem builder_c9_witness :
    buildStep "bot.bin" ⟨1, "err", false⟩ = Except.ok "bot.bin"
    ∧ (compileCppBot "123.cpp" ⟨1, "boom", false⟩).result
      = Except.error "Compilation failed with code 1\nboom"
    ∧ (compileCppBot "123.cpp" ⟨0, "", false⟩).result
      = Except.error "Compilation succeeded but executable was not created at 123"
    ∧ (compileCppBot "123.cpp" ⟨0, "", true⟩).result = Except.ok "123"
    ∧ (compileCppBot "123.cpp" ⟨0, "", true⟩).chmodCalled = true := by
  refine ⟨(builder_c9 "bot.bin" ⟨1, "err", false⟩).1 (by decide), ?_, ?_, ?_, ?_⟩
  · have h := (builder_c9 "123.cpp" ⟨1, "boom", false⟩).2.2.1 (by decide)
    simpa using h.1
  · have h := (builder_c9 "123.cpp" ⟨0, "", false⟩).2.2.2.1 rfl rfl
    simpa using h.1
  · have h := (builder_c9 "123.cpp" ⟨0, "", true⟩).2.2.2.2 rfl rfl
    simpa using h.1
  · exact ((builder_c9 "123.cpp" ⟨0, "", true⟩).2.2.2.2 rfl rfl).2

/-- C10: for the adjudication body `runMatch` posts (`{moves}`, with no `fen`
field), the local-process fallback writes exactly the literal lines
`position fen undefined` and `go movetime 1000` to the spawned engine — the
move history never reaches the local backend — and the local request resolves
iff the engine process exits with code 0 and its entire accumulated stdout
parses as a JSON value. -/
theorem local_fallback_c10 (ms : List String) (lp : String)
    (proc : LocalProc) (parseJson : String → Option ApiData) :
    localStdinLines "/api/bestmove" (some (runMatchBestmoveBody ms))
      = ["position fen undefined", "go movetime 1000"]
    ∧ (runMatchBestmoveBody ms).fen = none
    ∧ (makeLocalRequest (some lp) "/api/bestmove"
        (some (runMatchBestmoveBody ms)) proc parseJson).2
      = ["position fen undefined", "go movetime 1000"]
    ∧ (exOk (makeLocalRequest (some lp) "/api/bestmove"
          (some (runMatchBestmoveBody ms)) proc parseJson).1 = true
        ↔ proc.exitCode = 0 ∧ (parseJson proc.stdout).isSome = true) := by
  have hts : (toString (1000 : Nat) : String) = "1000" := rfl
  have hlines : localStdinLines "/api/bestmove" (some (runMatchBestmoveBody ms))
      = ["position fen undefined", "go movetime 1000"] := by
    simp [localStdinLines, runMatchBestmoveBody, jsInterpolate, jsOrNat, hts]
  refine ⟨hlines, rfl, by simpa [makeLocalRequest] using hlines, ?_⟩
  by_cases he : proc.exitCode = 0
  · rcases hp : parseJson proc.stdout with _ | d <;>
      simp [makeLocalRequest, he, hp, exOk]
  · simp [makeLocalRequest, he, exOk]

end ChessEngine
